import Mathlib

/-!
Verification of the ASP ("Athena's Study Parthenon") time-tracking core,
embedded from src/src/app/page.tsx.

Instants are modelled as America/New_York wall-clock minutes since an epoch
whose day 0 is a Thursday, so weekday numbering matches JS getDay
(Sunday = 0, ..., Saturday = 6, and day 0 has weekday 4).  All of the
program's calendar logic reads wall-clock fields produced by
Intl.DateTimeFormat with timeZone America/New_York, so the ET wall-clock
minute line is the faithful domain for these functions; the formatting of
the numeric fields into strings and their reparsing with parseInt is the
identity and is elided.  The remote row store is modelled as an explicit
record of tables, and each possibly-failing write is driven by a Boolean
telling whether that write succeeds (a failing write writes nothing, which
is the store's contract).
-/

/-- ET calendar date of an instant, as a day index.  The code (etDateKey)
formats it as a YYYY-MM-DD string; equality of those strings is equality of
day indices.  Lean's % and / on Int are Euclidean, so the minute of day and
day index are the usual nonnegative calendar fields. -/
def etDateKey (t : Int) : Int := t / 1440

/-- Minute of the ET day of an instant, h*60+mi of etParts (minutesOfDayET). -/
def minutesOfDayET (t : Int) : Int := t % 1440

/-- JS weekday number (Sunday 0 .. Saturday 6) of an instant; day 0 of the
model is a Thursday (weekday 4). -/
def weekdayET (t : Int) : Int := (etDateKey t + 4) % 7

/-- toLowerCase, on the string's character list. -/
def toLowerStr (s : String) : String := String.mk (s.data.map Char.toLower)

/-- String.prototype.startsWith, as a character-list prefix test. -/
def startsWithStr (s p : String) : Bool := List.isPrefixOf p.data s.data

/-- The short weekday name produced by Intl.DateTimeFormat weekday "short". -/
def weekdayShortName (w : Int) : String :=
  if w = 0 then "Sun"
  else if w = 1 then "Mon"
  else if w = 2 then "Tue"
  else if w = 3 then "Wed"
  else if w = 4 then "Thu"
  else if w = 5 then "Fri"
  else "Sat"

/-- ASP window start, 19*60+30 (ASP_START_MIN in the code). -/
def ASP_START_MIN : Int := 19 * 60 + 30

/-- ASP window end, 21*60+30 (ASP_END_MIN in the code). -/
def ASP_END_MIN : Int := 21 * 60 + 30

/-- TWO_HOURS_MIN in the code. -/
def TWO_HOURS_MIN : Int := 120

/-- isAspOpen from the code: format the instant in America/New_York,
lower-case the short weekday name, test it with startsWith for mon/wed, and
compare hour*60+minute against the 19:30/21:30 bounds. -/
def isAspOpen (t : Int) : Bool :=
  let weekday := toLowerStr (weekdayShortName (weekdayET t))
  let hour := minutesOfDayET t / 60
  let minute := minutesOfDayET t % 60
  let isMon := startsWithStr weekday ("mon")
  let isWed := startsWithStr weekday ("wed")
  let minutes := hour * 60 + minute
  let start := 19 * 60 + 30
  let en := 21 * 60 + 30
  (isMon || isWed) && decide (start ≤ minutes) && decide (minutes < en)

/-- overlapMinutesET from the code. -/
def overlapMinutesET (aStartMin aEndMin bStartMin bEndMin : Int) : Int :=
  let a1 := max aStartMin bStartMin
  let b1 := min aEndMin bEndMin
  max 0 (b1 - a1)

/-- A session row: sign_in/sign_out are instants (ISO timestamps in the
code), sign_out absent while the session is open, voided defaulting false. -/
structure Session where
  id : Nat
  cadet_id : Nat
  sign_in : Int
  sign_out : Option Int
  voided : Bool
deriving DecidableEq

/-- The body of the for-loop of minutesTonightET: skip sessions whose ET
sign-in date differs from tonight's key, otherwise accumulate the window
overlap of the session's minute-of-day interval. -/
def minutesTonightGo (tonightKey : Int) (now : Int) : List Session → Int → Int
  | [], sum => sum
  | s :: rest, sum =>
    let sout := Option.getD s.sign_out now
    if etDateKey s.sign_in ≠ tonightKey then
      minutesTonightGo tonightKey now rest sum
    else
      minutesTonightGo tonightKey now rest
        (sum + overlapMinutesET (minutesOfDayET s.sign_in) (minutesOfDayET sout)
          ASP_START_MIN ASP_END_MIN)

/-- minutesTonightET from the code: loop over the sessions, then
Math.min(sum, TWO_HOURS_MIN). -/
def minutesTonightET (sessions : List Session) (now : Int) : Int :=
  min (minutesTonightGo (etDateKey now) now sessions 0) TWO_HOURS_MIN

/-- The window overlap a single session contributes tonight. -/
def sessionTonightOverlap (s : Session) (now : Int) : Int :=
  overlapMinutesET (minutesOfDayET s.sign_in) (minutesOfDayET (Option.getD s.sign_out now))
    ASP_START_MIN ASP_END_MIN

/-- The declarative form of the claimed accrual: the sum, over exactly the
sessions whose ET sign-in date equals the date of now, of the session's
window overlap. -/
def tonightSum (sessions : List Session) (now : Int) : Int :=
  ((sessions.filter (fun s => etDateKey s.sign_in == etDateKey now)).map
    (fun s => sessionTonightOverlap s now)).sum

/-- nextWindow from the code, up to its final date formatting: it scans 8
days ahead for Mondays/Wednesdays and takes the first candidate whose
instant is strictly after now, else the first candidate.  The candidates
are built with the Date methods getDate/getDay/setHours(19,30), which act
in the DEVICE's local timezone, while isAspOpen formats in
America/New_York.  localOff is the device wall clock's offset in minutes
ahead of the ET wall clock (0 when the device is in America/New_York), so
the device-local wall time of an instant t is t + localOff, and a
device-local wall time l corresponds to the instant l - localOff. -/
def nextWindowUpcoming (now localOff : Int) : Int :=
  let l := now + localOff
  let candidates := (List.range 8).filterMap (fun add =>
    let day := l / 1440 + (add : Int)
    let dow := (day + 4) % 7
    if dow = 1 ∨ dow = 3 then some (day * 1440 + (19 * 60 + 30) - localOff) else none)
  (candidates.find? (fun d => decide (now < d))).getD (candidates.headD 0)

/-- normalizeName from the code: trim, collapse whitespace runs to single
spaces. -/
def normalizeName (raw : String) : String :=
  String.intercalate (" ") ((raw.split Char.isWhitespace).filter (fun t => !t.isEmpty))

/-- A cadet row (the participant record). -/
structure Cadet where
  id : Nat
  name : String
  klass : String
  company : String
deriving DecidableEq

/-- The remote row store: cadets, sessions, and leaderboard_overrides
(cadet_id, minutes_override). -/
structure Store where
  cadets : List Cadet
  sessions : List Session
  overrides : List (Nat × Int)
deriving DecidableEq

/-- Supabase maybeSingle: ok none for zero rows, the row for exactly one,
an error for more than one. -/
def maybeSingle {α : Type} : List α → Except Unit (Option α)
  | [] => Except.ok none
  | [a] => Except.ok (some a)
  | _ => Except.error ()

/-- Step 1 of handleSignIn: resolve an existing cadet id by exact
normalized match (maybeSingle), then case-insensitively (ilike, limit 1),
else keep the freshly generated id. -/
def resolveCadetId (cadets : List Cadet) (canonicalName klass company : String)
    (freshId : Nat) : Nat :=
  let exact := cadets.filter (fun c =>
    c.name == canonicalName && c.klass == klass && c.company == company)
  match maybeSingle exact with
  | Except.ok (some c) => c.id
  | _ =>
    let ci := cadets.filter (fun c =>
      toLowerStr c.name == toLowerStr canonicalName && c.klass == klass && c.company == company)
    match ci.head? with
    | some c => c.id
    | none => freshId

/-- Upsert into cadets with onConflict id. -/
def upsertCadet (cadets : List Cadet) (c : Cadet) : List Cadet :=
  if cadets.any (fun x => x.id == c.id) then
    cadets.map (fun x => if x.id == c.id then c else x)
  else cadets ++ [c]

/-- The error kinds surfaced by the handlers (each one a distinct
statusMsg in the code). -/
inductive AspError
  | validationError
  | closedWindowError
  | capExceededError
  | persistenceError
deriving DecidableEq

/-- What handleSignIn did. -/
inductive SignInOutcome
  | resumed (s : Session)
  | created (s : Session)
  | failed (e : AspError)
deriving DecidableEq

/-- handleSignIn from the code (Supabase path), as a function of the store
plus the browser-supplied environment: the typed name/class/company, the
current instant, the two freshly generated UUIDs, and whether each of the
two store writes (cadet upsert, session insert) succeeds.  Steps, in the
code's order: validation; window check; resolve and upsert the cadet;
resume an already-open session; the nightly-cap guard over the non-void
sessions of the last 36 hours; insert a new open session. -/
def handleSignIn (store : Store) (name : String) (klass : Option String)
    (company : String) (now : Int) (freshCadetId freshSessionId : Nat)
    (cadetUpsertOk insertOk : Bool) : SignInOutcome × Store :=
  if name == ("") || klass == none then
    (SignInOutcome.failed AspError.validationError, store)
  else if !isAspOpen now then
    (SignInOutcome.failed AspError.closedWindowError, store)
  else
    let canonicalName := normalizeName name
    let k := Option.getD klass ("")
    let cid := resolveCadetId store.cadets canonicalName k company freshCadetId
    let c : Cadet := ⟨cid, canonicalName, k, company⟩
    if !cadetUpsertOk then (SignInOutcome.failed AspError.persistenceError, store)
    else
      let store1 : Store := { store with cadets := upsertCadet store.cadets c }
      let openSessions := store1.sessions.filter (fun s =>
        s.cadet_id == cid && s.sign_out == none)
      match maybeSingle openSessions with
      | Except.ok (some existing) => (SignInOutcome.resumed existing, store1)
      | _ =>
        let since := now - 36 * 60
        let recent := store1.sessions.filter (fun s =>
          s.cadet_id == cid && s.voided == false && decide (since ≤ s.sign_in))
        if TWO_HOURS_MIN ≤ minutesTonightET recent now then
          (SignInOutcome.failed AspError.capExceededError, store1)
        else if !insertOk then (SignInOutcome.failed AspError.persistenceError, store1)
        else
          let ns : Session := ⟨freshSessionId, cid, now, none, false⟩
          (SignInOutcome.created ns, { store1 with sessions := store1.sessions ++ [ns] })

/-- What handleSignOut did. -/
inductive SignOutOutcome
  | signedOut
  | noActive
  | outFailed
deriving DecidableEq

/-- handleSignOut from the code: a no-op without an active session;
otherwise one update write setting sign_out := now on the active session's
row (updateOk tells whether it succeeds; a failing write writes nothing). -/
def handleSignOut (store : Store) (active : Option Session) (now : Int)
    (updateOk : Bool) : SignOutOutcome × Store :=
  match active with
  | none => (SignOutOutcome.noActive, store)
  | some a =>
    if updateOk then
      (SignOutOutcome.signedOut,
        { store with sessions := store.sessions.map (fun s =>
            if s.id == a.id then { s with sign_out := some now } else s) })
    else (SignOutOutcome.outFailed, store)

/-- One drafted row of the admin session editor. -/
structure SessionUpdate where
  id : Nat
  sign_in : Int
  sign_out : Option Int
deriving DecidableEq

/-- One sessions-table update of the admin edit loop: set sign_in and
sign_out on the row with the drafted id. -/
def applyUpdate (sessions : List Session) (u : SessionUpdate) : List Session :=
  sessions.map (fun s =>
    if s.id == u.id then { s with sign_in := u.sign_in, sign_out := u.sign_out } else s)

/-- All drafted updates applied in order. -/
def applyUpdates (sessions : List Session) (updates : List SessionUpdate) : List Session :=
  updates.foldl applyUpdate sessions

/-- Whether saveEdits reported success or a caught error. -/
inductive SaveResult
  | saved
  | saveFailed
deriving DecidableEq

/-- The for-loop of saveEdits: apply each update in order, throwing (and
keeping the updates already written) at the first failing write; updOk i
tells whether the i-th update write succeeds. -/
def saveEditsGo (updOk : Nat → Bool) : List SessionUpdate → Nat → List Session →
    List Session × Bool
  | [], _, sessions => (sessions, true)
  | u :: rest, i, sessions =>
    if updOk i then saveEditsGo updOk rest (i + 1) (applyUpdate sessions u)
    else (sessions, false)

/-- Upsert into leaderboard_overrides with onConflict cadet_id. -/
def upsertOverride (ovs : List (Nat × Int)) (cid : Nat) (v : Int) : List (Nat × Int) :=
  if ovs.any (fun p => p.1 == cid) then
    ovs.map (fun p => if p.1 == cid then (cid, v) else p)
  else ovs ++ [(cid, v)]

/-- saveEdits from the code: sequentially writes the drafted session edits,
then — when the override field is nonblank, modelled as some v with v the
value of Math.floor(Number(text)) — upserts max(0, v) as the override
(ovOk tells whether that write succeeds), or — when blank — deletes the
override row (the code ignores the delete's error; delOk tells whether the
delete takes effect). -/
def saveEdits (store : Store) (editCadet : Option Nat) (draft : List SessionUpdate)
    (editOverride : Option Int) (updOk : Nat → Bool) (ovOk delOk : Bool) :
    SaveResult × Store :=
  match editCadet with
  | none => (SaveResult.saved, store)
  | some cid =>
    match saveEditsGo updOk draft 0 store.sessions with
    | (sessions1, false) => (SaveResult.saveFailed, { store with sessions := sessions1 })
    | (sessions1, true) =>
      match editOverride with
      | some v =>
        if ovOk then
          let store1 : Store := { store with sessions := sessions1 }
          (SaveResult.saved,
            { store1 with overrides := upsertOverride store.overrides cid (max 0 v) })
        else (SaveResult.saveFailed, { store with sessions := sessions1 })
      | none =>
        let ovs := if delOk then store.overrides.filter (fun p => p.1 != cid)
          else store.overrides
        let store1 : Store := { store with sessions := sessions1 }
        (SaveResult.saved, { store1 with overrides := ovs })

/-- A leaderboard row as fetched (computed total before overrides). -/
structure LeaderboardRow where
  cadetId : Option Nat
  name : String
  klass : String
  company : String
  totalMin : Int
deriving DecidableEq

/-- overridesMap lookup: the override minutes for a cadet id, when set. -/
def lookupOverride (ovs : List (Nat × Int)) (cid : Nat) : Option Int :=
  (ovs.find? (fun p => p.1 == cid)).map (fun p => p.2)

/-- The override application in the leaderboard render: the displayed total
is the override when the row has a cadet id carrying one, else the
computed total. -/
def displayedTotal (ovs : List (Nat × Int)) (r : LeaderboardRow) : Int :=
  match r.cadetId with
  | some cid =>
    match lookupOverride ovs cid with
    | some v => v
    | none => r.totalMin
  | none => r.totalMin

/-- The PMI (reward) days column: Math.floor(total / 240) of the
displayed total. -/
def displayedRewardDays (ovs : List (Nat × Int)) (r : LeaderboardRow) : Int :=
  displayedTotal ovs r / 240

/-- The auto sign-out timeout callback: armed at sign-in with delay
max(0, (start + 2h) - now); whenever it actually runs (at any instant
fireTime, possibly late) it writes sign_out := active.sign_in + 120 — the
written value is computed from the armed end2h, not from the firing
instant. -/
def autoSignOutAt2h (store : Store) (active : Session) (fireTime : Int) : Store :=
  { store with sessions := store.sessions.map (fun s =>
      if s.id == active.id then { s with sign_out := some (active.sign_in + 120) } else s) }

/-- currentElapsedSec from the code, in minutes: elapsed time of a session
against now (or its sign-out), clamped to [0, 120]. -/
def currentElapsedMin (active : Option Session) (nowTs : Int) : Int :=
  match active with
  | none => 0
  | some s => min (max 0 (Option.getD s.sign_out nowTs - s.sign_in)) TWO_HOURS_MIN

/-- Modelled from the spec: the all-time leaderboard total is produced by
the database RPC asp_leaderboard_all_time_v2, whose SQL is not under src/
(fetchLeaderboard only floors its returned numbers).  Spec 4.3: each
non-void session is credited the window-overlap minutes between that
session's interval and its own date's open window; dates other than Monday
and Wednesday have no open window. -/
def sessionWindowMinutes (s : Session) (now : Int) : Int :=
  if weekdayET s.sign_in = 1 ∨ weekdayET s.sign_in = 3 then
    overlapMinutesET (minutesOfDayET s.sign_in)
      (minutesOfDayET (Option.getD s.sign_out now)) ASP_START_MIN ASP_END_MIN
  else 0

/-- Modelled from the spec: allTimeTotal sums the per-session window
overlaps over the non-void sessions (no additional nightly cap). -/
def allTimeTotal (sessions : List Session) (now : Int) : Int :=
  ((sessions.filter (fun s => s.voided == false)).map
    (fun s => sessionWindowMinutes s now)).sum

/-- The number of open (sign_out absent) sessions a cadet has in the
store — the quantity the at-most-one-open-session invariant bounds. -/
def openSessionCount (st : Store) (k : Nat) : Nat :=
  (st.sessions.filter (fun s => s.cadet_id == k && s.sign_out == none)).length

/-! ## Theorems -/

theorem overlapMinutesET_nonneg (a b c d : Int) : 0 ≤ overlapMinutesET a b c d :=
  le_max_left 0 _

theorem tonightSum_nonneg (sessions : List Session) (now : Int) :
    0 ≤ tonightSum sessions now := by
  apply List.sum_nonneg
  intro x hx
  rcases List.mem_map.mp hx with ⟨s, _, rfl⟩
  exact overlapMinutesET_nonneg _ _ _ _

theorem minutesTonightGo_eq (now : Int) (l : List Session) (acc : Int) :
    minutesTonightGo (etDateKey now) now l acc = acc + tonightSum l now := by
  induction l generalizing acc with
  | nil => simp [minutesTonightGo, tonightSum]
  | cons s rest ih =>
    by_cases h : etDateKey s.sign_in = etDateKey now
    · simp only [minutesTonightGo, h, ne_eq, not_true_eq_false, if_false, ih]
      simp [tonightSum, List.filter_cons, h, sessionTonightOverlap]
      ring
    · simp only [minutesTonightGo, h, ne_eq, not_false_eq_true, if_true, ih]
      simp [tonightSum, List.filter_cons, h]

/-- C1: accruedTonight (minutesTonightET) equals the sum, over exactly those
sessions whose ET sign-in date equals the date of now, of the overlap in
minutes between the session's [start, end-or-now] minute interval and the
window [1170, 1290), with that sum clamped to the range [0, 120]. -/
theorem accruedTonight_is_clamped_window_sum (sessions : List Session) (now : Int) :
    minutesTonightET sessions now = max 0 (min (tonightSum sessions now) 120) := by
  have hs := tonightSum_nonneg sessions now
  have h := minutesTonightGo_eq now sessions 0
  simp only [minutesTonightET, h, zero_add, TWO_HOURS_MIN]
  rcases le_total (tonightSum sessions now) 120 with hle | hle
  · rw [min_eq_left hle, max_eq_right hs]
  · rw [min_eq_right hle]
    have : (0 : Int) ≤ 120 := by norm_num
    rw [max_eq_right this]

theorem startsWith_weekday_mon (w : Int) :
    startsWithStr (toLowerStr (weekdayShortName w)) ("mon") = (w == 1) := by
  by_cases h0 : w = 0
  · subst h0; decide
  by_cases h1 : w = 1
  · subst h1; decide
  by_cases h2 : w = 2
  · subst h2; decide
  by_cases h3 : w = 3
  · subst h3; decide
  by_cases h4 : w = 4
  · subst h4; decide
  by_cases h5 : w = 5
  · subst h5; decide
  have hb : (w == 1) = false := beq_eq_false_iff_ne.mpr h1
  simp only [weekdayShortName, h0, h1, h2, h3, h4, h5, if_false, hb]
  decide

theorem startsWith_weekday_wed (w : Int) :
    startsWithStr (toLowerStr (weekdayShortName w)) ("wed") = (w == 3) := by
  by_cases h0 : w = 0
  · subst h0; decide
  by_cases h1 : w = 1
  · subst h1; decide
  by_cases h2 : w = 2
  · subst h2; decide
  by_cases h3 : w = 3
  · subst h3; decide
  by_cases h4 : w = 4
  · subst h4; decide
  by_cases h5 : w = 5
  · subst h5; decide
  have hb : (w == 3) = false := beq_eq_false_iff_ne.mpr h3
  simp only [weekdayShortName, h0, h1, h2, h3, h4, h5, if_false, hb]
  decide

/-- Arithmetic characterization of isAspOpen, bridging the formatted
weekday string and reassembled hour*60+minute back to weekday number and
minute of day. -/
theorem isAspOpen_iff (t : Int) :
    isAspOpen t = true ↔
      ((weekdayET t = 1 ∨ weekdayET t = 3) ∧
        1170 ≤ minutesOfDayET t ∧ minutesOfDayET t < 1290) := by
  have hm : minutesOfDayET t / 60 * 60 + minutesOfDayET t % 60 = minutesOfDayET t := by
    simp only [minutesOfDayET]
    omega
  simp only [isAspOpen, startsWith_weekday_mon, startsWith_weekday_wed, hm,
    Bool.and_eq_true, Bool.or_eq_true, beq_iff_eq, decide_eq_true_eq]
  norm_num
  tauto

/-- C6: isAspOpen is true exactly when the ET weekday is Monday or
Wednesday and the ET minute of day lies in [1170, 1290); an instant exactly
at minute 1170 (Monday 19:30) is open and one exactly at minute 1290
(Monday 21:30) is closed. -/
theorem isOpen_truth_table :
    (∀ t : Int, isAspOpen t = true ↔
      ((weekdayET t = 1 ∨ weekdayET t = 3) ∧
        1170 ≤ minutesOfDayET t ∧ minutesOfDayET t < 1290)) ∧
    isAspOpen (4 * 1440 + 1170) = true ∧ isAspOpen (4 * 1440 + 1290) = false :=
  ⟨isAspOpen_iff, by decide, by decide⟩

/-- C7: the nextWindow computation uses the device's local weekday and
local 19:30, not America/New_York.  On a device 13 hours ahead of ET (for
example Asia/Tokyo while ET observes daylight saving), from the instant 0
(Thursday 00:00 ET) it returns the instant 6150 = Monday 06:30 ET (Monday
19:30 device time), at which isAspOpen is false; with the device clock in
ET (offset 0) it returns 6930 = Monday 19:30 ET, which is strictly in the
future and open, as the claim states. -/
theorem nextWindow_uses_device_not_program_timezone :
    nextWindowUpcoming 0 780 = 6150 ∧ isAspOpen 6150 = false ∧
    nextWindowUpcoming 0 0 = 6930 ∧ (0 : Int) < 6930 ∧ isAspOpen 6930 = true := by
  refine ⟨by decide, by decide, by decide, by decide, by decide⟩

/-- C10: a session whose ET sign-out minute-of-day is at most its sign-in
minute-of-day (for example one crossing midnight) contributes exactly 0
overlap minutes to accruedTonight: the inverted minute-of-day interval is
clamped to 0 rather than computed across the day boundary. -/
theorem midnight_crossing_session_contributes_zero (s : Session) (rest : List Session) (now : Int)
    (h : minutesOfDayET (Option.getD s.sign_out now) ≤ minutesOfDayET s.sign_in) :
    minutesTonightET (s :: rest) now = minutesTonightET rest now := by
  have hover : sessionTonightOverlap s now = 0 := by
    simp only [sessionTonightOverlap, overlapMinutesET]
    have h1 : (1170 : Int) ≤ max (minutesOfDayET s.sign_in) ASP_START_MIN := by
      simp [ASP_START_MIN]
    have h2 : min (minutesOfDayET (Option.getD s.sign_out now)) ASP_END_MIN ≤
        max (minutesOfDayET s.sign_in) ASP_START_MIN := by
      rcases le_total (minutesOfDayET (Option.getD s.sign_out now)) ASP_END_MIN with hc | hc
      · rw [min_eq_left hc]
        exact le_trans h (le_max_left _ _)
      · rw [min_eq_right hc]
        calc ASP_END_MIN ≤ minutesOfDayET (Option.getD s.sign_out now) := hc
          _ ≤ minutesOfDayET s.sign_in := h
          _ ≤ max (minutesOfDayET s.sign_in) ASP_START_MIN := le_max_left _ _
    have : min (minutesOfDayET (Option.getD s.sign_out now)) ASP_END_MIN -
        max (minutesOfDayET s.sign_in) ASP_START_MIN ≤ 0 := by omega
    omega
  simp only [minutesTonightET]
  congr 1
  rw [minutesTonightGo_eq, minutesTonightGo_eq]
  by_cases hd : etDateKey s.sign_in = etDateKey now
  · simp [tonightSum, List.filter_cons, hd, hover]
  · simp [tonightSum, List.filter_cons, hd]

/-- Witness for C10 at a concrete midnight-crossing session: signed in
Monday 23:40 ET, signed out Tuesday 01:00 ET. -/
theorem midnight_crossing_session_contributes_zero_witness :
    minutesTonightET [⟨1, 1, 4 * 1440 + 1420, some (5 * 1440 + 60), false⟩] (4 * 1440 + 1425) = 0 := by
  have h := midnight_crossing_session_contributes_zero
    ⟨1, 1, 4 * 1440 + 1420, some (5 * 1440 + 60), false⟩ [] (4 * 1440 + 1425) (by decide)
  rw [h]
  decide

/-- C5: for a session still open at start + 120 minutes, the automatic
expiry writes end = start + 120 exactly — the written value does not
depend on the instant at which the timeout actually fires — so the expired
session's credited elapsed time is exactly 120 minutes even when the
expiry fires late. -/
theorem autoExpire_sets_end_exactly_two_hours (store : Store) (active s : Session)
    (fireTime now : Int) (hs : s ∈ store.sessions) (hid : s.id = active.id)
    (hsin : s.sign_in = active.sign_in) (hopen : s.sign_out = none) :
    { s with sign_out := some (s.sign_in + 120) } ∈
      (autoSignOutAt2h store active fireTime).sessions ∧
    (∀ f1 f2 : Int, autoSignOutAt2h store active f1 = autoSignOutAt2h store active f2) ∧
    currentElapsedMin (some { s with sign_out := some (s.sign_in + 120) }) now = 120 := by
  refine ⟨?_, fun f1 f2 => rfl, ?_⟩
  · simp only [autoSignOutAt2h]
    have hval : ({ s with sign_out := some (s.sign_in + 120) } : Session) =
        (fun x : Session =>
          if x.id == active.id then { x with sign_out := some (active.sign_in + 120) }
          else x) s := by
      simp [hid, hsin]
    rw [hval]
    exact List.mem_map_of_mem _ hs
  · simp only [currentElapsedMin, Option.getD_some, TWO_HOURS_MIN]
    omega

/-- Witness for C5: a session of cadet 1 opened at instant 1000, expiry
firing (late) at instant 5000, ends exactly at 1120. -/
theorem autoExpire_sets_end_exactly_two_hours_witness :
    ({ id := 7, cadet_id := 1, sign_in := 1000, sign_out := some (1000 + 120),
        voided := false } : Session) ∈
      (autoSignOutAt2h ⟨[], [⟨7, 1, 1000, none, false⟩], []⟩ ⟨7, 1, 1000, none, false⟩
        5000).sessions ∧
    currentElapsedMin (some ⟨7, 1, 1000, some (1000 + 120), false⟩) 9999 = 120 := by
  have h := autoExpire_sets_end_exactly_two_hours ⟨[], [⟨7, 1, 1000, none, false⟩], []⟩
    ⟨7, 1, 1000, none, false⟩ ⟨7, 1, 1000, none, false⟩ 5000 9999
    (List.mem_singleton.mpr rfl) rfl rfl rfl
  exact ⟨h.1, h.2.2⟩

/-- C3: allTimeTotal credits each non-void session exactly the overlap of
its interval with its own date's open window: zero when entirely outside
any open window, the full duration when entirely inside one window, and
exactly the window part when straddling (a Monday 19:00–22:00 session
contributes exactly 120 minutes, not 180). -/
theorem allTimeTotal_caps_each_session_to_window (s : Session) (now : Int)
    (hv : s.voided = false) :
    ((¬(weekdayET s.sign_in = 1 ∨ weekdayET s.sign_in = 3) ∨
        minutesOfDayET (Option.getD s.sign_out now) ≤ 1170 ∨
        1290 ≤ minutesOfDayET s.sign_in) →
      allTimeTotal [s] now = 0) ∧
    ((weekdayET s.sign_in = 1 ∨ weekdayET s.sign_in = 3) →
      1170 ≤ minutesOfDayET s.sign_in →
      minutesOfDayET s.sign_in ≤ minutesOfDayET (Option.getD s.sign_out now) →
      minutesOfDayET (Option.getD s.sign_out now) ≤ 1290 →
      allTimeTotal [s] now =
        minutesOfDayET (Option.getD s.sign_out now) - minutesOfDayET s.sign_in) ∧
    ((weekdayET s.sign_in = 1 ∨ weekdayET s.sign_in = 3) →
      minutesOfDayET s.sign_in ≤ 1170 →
      1290 ≤ minutesOfDayET (Option.getD s.sign_out now) →
      allTimeTotal [s] now = 120) := by
  have hsingle : allTimeTotal [s] now = sessionWindowMinutes s now := by
    simp [allTimeTotal, List.filter_cons, hv]
  refine ⟨?_, ?_, ?_⟩
  · rintro (hw | hb | ha)
    · rw [hsingle, sessionWindowMinutes, if_neg hw]
    · rw [hsingle, sessionWindowMinutes]
      split
      · simp only [overlapMinutesET, ASP_START_MIN, ASP_END_MIN]
        omega
      · rfl
    · rw [hsingle, sessionWindowMinutes]
      split
      · simp only [overlapMinutesET, ASP_START_MIN, ASP_END_MIN]
        omega
      · rfl
  · intro hw h1 h2 h3
    rw [hsingle, sessionWindowMinutes, if_pos hw]
    simp only [overlapMinutesET, ASP_START_MIN, ASP_END_MIN]
    omega
  · intro hw h1 h2
    rw [hsingle, sessionWindowMinutes, if_pos hw]
    simp only [overlapMinutesET, ASP_START_MIN, ASP_END_MIN]
    omega

/-- Witness for C3 at three concrete sessions: a Tuesday 10:00–11:00
session contributes 0; a Monday 19:35–20:05 session contributes its full
30 minutes; a Monday 19:00–22:00 session contributes exactly 120. -/
theorem allTimeTotal_caps_each_session_to_window_witness :
    allTimeTotal [⟨1, 1, 5 * 1440 + 600, some (5 * 1440 + 660), false⟩] 0 = 0 ∧
    allTimeTotal [⟨2, 1, 4 * 1440 + 1175, some (4 * 1440 + 1205), false⟩] 0 = 30 ∧
    allTimeTotal [⟨3, 1, 4 * 1440 + 1140, some (4 * 1440 + 1320), false⟩] 0 = 120 := by
  refine ⟨?_, ?_, ?_⟩
  · exact (allTimeTotal_caps_each_session_to_window
      ⟨1, 1, 5 * 1440 + 600, some (5 * 1440 + 660), false⟩ 0 rfl).1 (by decide)
  · have h := (allTimeTotal_caps_each_session_to_window
      ⟨2, 1, 4 * 1440 + 1175, some (4 * 1440 + 1205), false⟩ 0 rfl).2.1
      (by decide) (by decide) (by decide) (by decide)
    rw [h]
    decide
  · exact (allTimeTotal_caps_each_session_to_window
      ⟨3, 1, 4 * 1440 + 1140, some (4 * 1440 + 1320), false⟩ 0 rfl).2.2
      (by decide) (by decide) (by decide)

theorem tonightSum_filter_recent (l : List Session) (now : Int) (p : Session → Bool) :
    tonightSum (l.filter (fun s => p s && decide (now - 36 * 60 ≤ s.sign_in))) now =
    tonightSum (l.filter p) now := by
  simp only [tonightSum, List.filter_filter]
  have hf : l.filter (fun s =>
        (etDateKey s.sign_in == etDateKey now) && (p s && decide (now - 36 * 60 ≤ s.sign_in))) =
      l.filter (fun s => (etDateKey s.sign_in == etDateKey now) && p s) := by
    apply List.filter_congr
    intro s _
    by_cases hd : etDateKey s.sign_in = etDateKey now
    · have hbound : now ≤ s.sign_in + 2160 := by
        have : s.sign_in / 1440 = now / 1440 := hd
        omega
      simp [hd, hbound]
    · have hdf : (etDateKey s.sign_in == etDateKey now) = false :=
        beq_eq_false_iff_ne.mpr hd
      simp [hdf]
  rw [hf]

/-- On the list the cap guard actually queries (non-void sessions of the
last 36 hours), minutesTonightET agrees with its value on all non-void
sessions: every session dated today is at most 24 hours old, so the
36-hour cutoff removes only sessions the date check skips anyway. -/
theorem minutesTonightET_filter_recent (l : List Session) (now : Int) (p : Session → Bool) :
    minutesTonightET (l.filter (fun s => p s && decide (now - 36 * 60 ≤ s.sign_in))) now =
    minutesTonightET (l.filter p) now := by
  have h1 := minutesTonightGo_eq now
    (l.filter (fun s => p s && decide (now - 36 * 60 ≤ s.sign_in))) 0
  have h2 := minutesTonightGo_eq now (l.filter p) 0
  simp only [minutesTonightET, h1, h2, zero_add, tonightSum_filter_recent]

/-- C2: when a participant's non-void sessions already accrue at least 120
window-overlap minutes on the calendar date of now and no open session
exists, handleSignIn at now fails with the cap-exceeded error and creates
no new session. -/
theorem signIn_blocked_at_nightly_cap (store : Store) (name : String)
    (klass : Option String) (company : String) (now : Int)
    (freshCadetId freshSessionId cid : Nat) (insertOk : Bool)
    (hcid : cid = resolveCadetId store.cadets (normalizeName name)
      (Option.getD klass ("")) company freshCadetId)
    (hname : ¬ name = "") (hklass : ¬ klass = none) (hopen : isAspOpen now = true)
    (hnoopen : store.sessions.filter
      (fun s => s.cadet_id == cid && s.sign_out == none) = [])
    (hcap : TWO_HOURS_MIN ≤ minutesTonightET
      (store.sessions.filter (fun s => s.cadet_id == cid && s.voided == false)) now) :
    (handleSignIn store name klass company now freshCadetId freshSessionId true insertOk).1 =
      SignInOutcome.failed AspError.capExceededError ∧
    (handleSignIn store name klass company now freshCadetId freshSessionId true
      insertOk).2.sessions = store.sessions := by
  subst hcid
  have hn : (name == ("")) = false := beq_eq_false_iff_ne.mpr hname
  have hk : (klass == none) = false := beq_eq_false_iff_ne.mpr hklass
  have hcap2 : TWO_HOURS_MIN ≤ minutesTonightET
      (store.sessions.filter (fun s =>
        s.cadet_id == resolveCadetId store.cadets (normalizeName name)
          (Option.getD klass ("")) company freshCadetId &&
        s.voided == false && decide (now - 36 * 60 ≤ s.sign_in))) now := by
    rw [minutesTonightET_filter_recent]
    exact hcap
  simp only [handleSignIn, hn, hk, hopen, Bool.or_self, Bool.not_true, if_false,
    hnoopen, maybeSingle]
  rw [if_pos hcap2]
  simp

theorem handleSignIn_resumes (store : Store) (name : String) (klass : Option String)
    (company : String) (now : Int) (fci fsi cid : Nat) (insOk : Bool) (ex : Session)
    (hcid : cid = resolveCadetId store.cadets (normalizeName name)
      (Option.getD klass ("")) company fci)
    (hname : ¬ name = "") (hklass : ¬ klass = none) (hopen : isAspOpen now = true)
    (hone : store.sessions.filter
      (fun s => s.cadet_id == cid && s.sign_out == none) = [ex]) :
    (handleSignIn store name klass company now fci fsi true insOk).1 =
      SignInOutcome.resumed ex ∧
    (handleSignIn store name klass company now fci fsi true insOk).2.sessions =
      store.sessions := by
  subst hcid
  have hn : (name == ("")) = false := beq_eq_false_iff_ne.mpr hname
  have hk : (klass == none) = false := beq_eq_false_iff_ne.mpr hklass
  simp only [handleSignIn, hn, hk, hopen, Bool.or_self, Bool.not_true, if_false,
    hone, maybeSingle]
  simp

theorem handleSignIn_preserves_open_count (store : Store) (name : String)
    (klass : Option String) (company : String) (now : Int) (fci fsi : Nat)
    (cuOk insOk : Bool) (hinv : ∀ j, openSessionCount store j ≤ 1) (k : Nat) :
    openSessionCount (handleSignIn store name klass company now fci fsi cuOk insOk).2 k ≤ 1 := by
  simp only [handleSignIn]
  set cid := resolveCadetId store.cadets (normalizeName name)
    (Option.getD klass ("")) company fci with hcid
  split
  · exact hinv k
  · split
    · exact hinv k
    · split
      · exact hinv k
      · split
        · simp only [openSessionCount]
          exact hinv k
        · rename_i hscrut hnotsome
          split
          · simp only [openSessionCount]
            exact hinv k
          · split
            · simp only [openSessionCount]
              exact hinv k
            · have hfil : store.sessions.filter
                  (fun s => s.cadet_id == cid && s.sign_out == none) = [] := by
                rcases hl : store.sessions.filter
                    (fun s => s.cadet_id == cid && s.sign_out == none) with _ | ⟨a, tl⟩
                · exact hl
                · cases tl with
                  | nil => exact (hnotsome a (by simp [hl, maybeSingle])).elim
                  | cons b t =>
                    have hc := hinv cid
                    simp only [openSessionCount, hl, List.length_cons] at hc
                    omega
              simp only [openSessionCount, List.filter_append, List.length_append]
              by_cases hk : cid = k
              · subst hk
                simp [hfil, List.filter_cons]
              · have hkf : (cid == k) = false := beq_eq_false_iff_ne.mpr hk
                have hrest := hinv k
                simp only [openSessionCount] at hrest
                simp [List.filter_cons, hkf]
                omega

/-- C4: a participant with an existing open session who signs in again with
no intervening sign-out gets that same session back unchanged and no new
session is created; moreover sign-in preserves the
at-most-one-open-session-per-participant invariant on every path. -/
theorem signIn_resume_idempotent_single_open (store : Store) (name : String)
    (klass : Option String) (company : String) (now : Int) (fci fsi cid : Nat)
    (cuOk insOk : Bool) (ex : Session) :
    (cid = resolveCadetId store.cadets (normalizeName name)
        (Option.getD klass ("")) company fci →
      ¬ name = "" → ¬ klass = none → isAspOpen now = true →
      store.sessions.filter (fun s => s.cadet_id == cid && s.sign_out == none) = [ex] →
      (handleSignIn store name klass company now fci fsi true insOk).1 =
        SignInOutcome.resumed ex ∧
      (handleSignIn store name klass company now fci fsi true insOk).2.sessions =
        store.sessions) ∧
    ((∀ j, openSessionCount store j ≤ 1) →
      ∀ j, openSessionCount
        (handleSignIn store name klass company now fci fsi cuOk insOk).2 j ≤ 1) :=
  ⟨fun hcid hn hk ho hone =>
    handleSignIn_resumes store name klass company now fci fsi cid insOk ex hcid hn hk ho hone,
   fun hinv j =>
    handleSignIn_preserves_open_count store name klass company now fci fsi cuOk insOk hinv j⟩

/-- Witness for C4: cadet 42 already has the open session (id 1); signing
in again resumes it, the stored sessions are unchanged, and the open-session
count stays at one. -/
theorem signIn_resume_idempotent_single_open_witness :
    (handleSignIn ⟨[], [⟨1, 42, 4 * 1440 + 1180, none, false⟩], []⟩ ("Al") (some ("3C"))
      ("G1") (4 * 1440 + 1200) 42 43 true true).1 =
      SignInOutcome.resumed ⟨1, 42, 4 * 1440 + 1180, none, false⟩ ∧
    (handleSignIn ⟨[], [⟨1, 42, 4 * 1440 + 1180, none, false⟩], []⟩ ("Al") (some ("3C"))
      ("G1") (4 * 1440 + 1200) 42 43 true true).2.sessions =
      [⟨1, 42, 4 * 1440 + 1180, none, false⟩] ∧
    openSessionCount (handleSignIn ⟨[], [⟨1, 42, 4 * 1440 + 1180, none, false⟩], []⟩
      ("Al") (some ("3C")) ("G1") (4 * 1440 + 1200) 42 43 true true).2 42 ≤ 1 := by
  have h := signIn_resume_idempotent_single_open
    ⟨[], [⟨1, 42, 4 * 1440 + 1180, none, false⟩], []⟩ ("Al") (some ("3C")) ("G1")
    (4 * 1440 + 1200) 42 43 42 true true ⟨1, 42, 4 * 1440 + 1180, none, false⟩
  have hinv : ∀ j, openSessionCount ⟨[], [⟨1, 42, 4 * 1440 + 1180, none, false⟩], []⟩ j ≤ 1 := by
    intro j
    by_cases hj : (42 : Nat) = j
    · subst hj
      decide
    · have hb : ((42 : Nat) == j) = false := beq_eq_false_iff_ne.mpr hj
      simp [openSessionCount, List.filter_cons, hb]
  have h1 := h.1 (by decide) (by decide) (by decide) (by decide) (by decide)
  exact ⟨h1.1, h1.2, h.2 hinv 42⟩

/-- C8: an override replaces the computed total only in the leaderboard
rows built for display, with the displayed reward-day count
floor(override/240); saving, changing, or clearing an override through
saveEdits with no drafted session edits leaves the stored sessions
untouched, so a subsequent allTimeTotal recomputation still returns the
computed value. -/
theorem override_affects_display_only (ovs : List (Nat × Int)) (r : LeaderboardRow)
    (cid : Nat) (v : Int) (store : Store) (ecid : Nat) (editOverride : Option Int)
    (updOk : Nat → Bool) (ovOk delOk : Bool) (now : Int)
    (hr : r.cadetId = some cid) (hv : lookupOverride ovs cid = some v) :
    displayedTotal ovs r = v ∧
    displayedRewardDays ovs r = v / 240 ∧
    (saveEdits store (some ecid) [] editOverride updOk ovOk delOk).2.sessions =
      store.sessions ∧
    allTimeTotal ((saveEdits store (some ecid) [] editOverride updOk ovOk delOk).2.sessions)
      now = allTimeTotal store.sessions now := by
  have hd : displayedTotal ovs r = v := by
    simp [displayedTotal, hr, hv]
  have hsess : (saveEdits store (some ecid) [] editOverride updOk ovOk delOk).2.sessions =
      store.sessions := by
    simp only [saveEdits, saveEditsGo]
    cases editOverride with
    | some w =>
      by_cases hov : ovOk <;> simp [hov]
    | none => simp
  exact ⟨hd, by simp [displayedRewardDays, hd], hsess, by rw [hsess]⟩

/-- Witness for C8: cadet 5 has override 1000 but computed total 30; the
leaderboard shows 1000 (4 reward days), while the stored sessions survive
the override save and still recompute to 30. -/
theorem override_affects_display_only_witness :
    displayedTotal [(5, 1000)] ⟨some 5, ("Al"), ("3C"), ("G1"), 30⟩ = 1000 ∧
    displayedRewardDays [(5, 1000)] ⟨some 5, ("Al"), ("3C"), ("G1"), 30⟩ = 4 ∧
    (saveEdits ⟨[], [⟨1, 5, 4 * 1440 + 1175, some (4 * 1440 + 1205), false⟩], []⟩ (some 5) []
      (some 1000) (fun _ => true) true true).2.sessions =
      [⟨1, 5, 4 * 1440 + 1175, some (4 * 1440 + 1205), false⟩] ∧
    allTimeTotal ((saveEdits ⟨[], [⟨1, 5, 4 * 1440 + 1175, some (4 * 1440 + 1205), false⟩], []⟩
      (some 5) [] (some 1000) (fun _ => true) true true).2.sessions) 0 = 30 := by
  have h := override_affects_display_only [(5, 1000)] ⟨some 5, ("Al"), ("3C"), ("G1"), 30⟩
    5 1000 ⟨[], [⟨1, 5, 4 * 1440 + 1175, some (4 * 1440 + 1205), false⟩], []⟩ 5 (some 1000)
    (fun _ => true) true true 0 rfl (by decide)
  refine ⟨h.1, ?_, h.2.2.1, ?_⟩
  · rw [h.2.1]
    decide
  · rw [h.2.2.2]
    decide

theorem saveEditsGo_spec (updOk : Nat → Bool) (draft : List SessionUpdate) (i : Nat)
    (sess : List Session) :
    ((saveEditsGo updOk draft i sess).2 = true ∧
      (saveEditsGo updOk draft i sess).1 = applyUpdates sess draft) ∨
    ((saveEditsGo updOk draft i sess).2 = false ∧
      ∃ n, n ≤ draft.length ∧
        (saveEditsGo updOk draft i sess).1 = applyUpdates sess (draft.take n)) := by
  induction draft generalizing i sess with
  | nil => exact Or.inl ⟨rfl, rfl⟩
  | cons u rest ih =>
    by_cases hu : updOk i
    · rcases ih (i + 1) (applyUpdate sess u) with ⟨h1, h2⟩ | ⟨h1, n, hn, h2⟩
      · left
        refine ⟨?_, ?_⟩
        · simpa [saveEditsGo, hu] using h1
        · simpa [saveEditsGo, hu, applyUpdates] using h2
      · right
        refine ⟨by simpa [saveEditsGo, hu] using h1, n + 1, Nat.succ_le_succ hn, ?_⟩
        simpa [saveEditsGo, hu, applyUpdates] using h2
    · right
      refine ⟨by simp [saveEditsGo, hu], 0, Nat.zero_le _, by simp [saveEditsGo, hu, applyUpdates]⟩

/-- C9 (amended): a failing sign-out leaves the store untouched; any
failing sign-in leaves the stored sessions and overrides untouched (the
participant upsert may already have been applied); a failing admin save
leaves the overrides untouched and leaves the sessions with exactly the
prefix of drafted updates that succeeded before the failure applied. -/
theorem failing_ops_leave_only_prefix_writes (store : Store) (a : Session) (now : Int)
    (name : String) (klass : Option String) (company : String) (fci fsi : Nat)
    (cuOk insOk : Bool) (e : AspError) (ecid : Option Nat) (draft : List SessionUpdate)
    (editOverride : Option Int) (updOk : Nat → Bool) (ovOk delOk : Bool) :
    handleSignOut store (some a) now false = (SignOutOutcome.outFailed, store) ∧
    ((handleSignIn store name klass company now fci fsi cuOk insOk).1 =
        SignInOutcome.failed e →
      (handleSignIn store name klass company now fci fsi cuOk insOk).2.sessions =
        store.sessions ∧
      (handleSignIn store name klass company now fci fsi cuOk insOk).2.overrides =
        store.overrides) ∧
    ((saveEdits store ecid draft editOverride updOk ovOk delOk).1 = SaveResult.saveFailed →
      (saveEdits store ecid draft editOverride updOk ovOk delOk).2.overrides =
        store.overrides ∧
      ∃ n, n ≤ draft.length ∧
        (saveEdits store ecid draft editOverride updOk ovOk delOk).2.sessions =
          applyUpdates store.sessions (draft.take n)) := by
  refine ⟨by simp [handleSignOut], ?_, ?_⟩
  · simp only [handleSignIn]
    split
    · intro _
      exact ⟨rfl, rfl⟩
    · split
      · intro _
        exact ⟨rfl, rfl⟩
      · split
        · intro _
          exact ⟨rfl, rfl⟩
        · split
          · intro h
            simp at h
          · split
            · intro _
              exact ⟨rfl, rfl⟩
            · split
              · intro _
                exact ⟨rfl, rfl⟩
              · intro h
                simp at h
  · cases ecid with
    | none =>
      intro h
      simp [saveEdits] at h
    | some cid =>
      rcases hgo : saveEditsGo updOk draft 0 store.sessions with ⟨sessions1, ok⟩
      cases ok with
      | false =>
        intro _
        rcases saveEditsGo_spec updOk draft 0 store.sessions with ⟨h1, _⟩ | ⟨_, n, hn, h2⟩
        · rw [hgo] at h1
          simp at h1
        · rw [hgo] at h2
          simp only [saveEdits, hgo]
          refine ⟨by simp, n, hn, by simpa using h2⟩
      | true =>
        cases editOverride with
        | some v =>
          by_cases hov : ovOk
          · intro h
            simp [saveEdits, hgo, hov] at h
          · intro _
            rcases saveEditsGo_spec updOk draft 0 store.sessions with ⟨_, h2⟩ | ⟨h1, _⟩
            · rw [hgo] at h2
              simp only [saveEdits, hgo, hov]
              refine ⟨by simp, draft.length, Nat.le_refl _, ?_⟩
              rw [List.take_length]
              simpa [hov] using h2
            · rw [hgo] at h1
              simp at h1
        | none =>
          intro h
          simp [saveEdits, hgo] at h

/-- C9 counterexample: operations are not atomic.  An admin save whose
second drafted update fails reports failure yet leaves the first update
applied (stored sessions changed), and a sign-in whose session insert
fails reports failure yet leaves the freshly upserted participant record
(stored cadets changed). -/
theorem failing_ops_change_state_counterexample :
    ((saveEdits ⟨[], [⟨1, 1, 100, some 160, false⟩, ⟨2, 1, 200, some 260, false⟩], []⟩
        (some 1) [⟨1, 110, some 170⟩, ⟨2, 210, some 270⟩] none (fun i => i == 0)
        true true).1 = SaveResult.saveFailed ∧
      (saveEdits ⟨[], [⟨1, 1, 100, some 160, false⟩, ⟨2, 1, 200, some 260, false⟩], []⟩
        (some 1) [⟨1, 110, some 170⟩, ⟨2, 210, some 270⟩] none (fun i => i == 0)
        true true).2.sessions ≠
        [⟨1, 1, 100, some 160, false⟩, ⟨2, 1, 200, some 260, false⟩]) ∧
    ((handleSignIn ⟨[], [], []⟩ ("Al") (some ("3C")) ("G1") (4 * 1440 + 1200) 42 43 true
        false).1 = SignInOutcome.failed AspError.persistenceError ∧
      (handleSignIn ⟨[], [], []⟩ ("Al") (some ("3C")) ("G1") (4 * 1440 + 1200) 42 43 true
        false).2.cadets ≠ []) := by
  refine ⟨⟨?_, ?_⟩, ?_, ?_⟩ <;> decide

/-- Witness for the amended C9 at concrete inputs: a failed sign-out
changes nothing; a sign-in failing validation leaves sessions and
overrides unchanged; an admin save whose only update fails leaves the
overrides unchanged and the sessions equal to some applied prefix of the
draft. -/
theorem failing_ops_leave_only_prefix_writes_witness :
    handleSignOut ⟨[], [⟨3, 1, 300, some 360, false⟩], []⟩ (some ⟨3, 1, 300, none, false⟩)
      400 false =
      (SignOutOutcome.outFailed, ⟨[], [⟨3, 1, 300, some 360, false⟩], []⟩) ∧
    ((handleSignIn ⟨[], [⟨3, 1, 300, some 360, false⟩], []⟩ ("") none ("G1") 400 1 2 true
        true).2.sessions = [⟨3, 1, 300, some 360, false⟩] ∧
      (handleSignIn ⟨[], [⟨3, 1, 300, some 360, false⟩], []⟩ ("") none ("G1") 400 1 2 true
        true).2.overrides = []) ∧
    ((saveEdits ⟨[], [⟨3, 1, 300, some 360, false⟩], []⟩ (some 1) [⟨3, 310, some 370⟩] none
        (fun _ => false) true true).2.overrides = [] ∧
      ∃ n, n ≤ ([⟨3, 310, some 370⟩] : List SessionUpdate).length ∧
        (saveEdits ⟨[], [⟨3, 1, 300, some 360, false⟩], []⟩ (some 1) [⟨3, 310, some 370⟩] none
          (fun _ => false) true true).2.sessions =
          applyUpdates [⟨3, 1, 300, some 360, false⟩] ([⟨3, 310, some 370⟩].take n)) := by
  have h := failing_ops_leave_only_prefix_writes ⟨[], [⟨3, 1, 300, some 360, false⟩], []⟩
    ⟨3, 1, 300, none, false⟩ 400 ("") none ("G1") 1 2 true true AspError.validationError
    (some 1) [⟨3, 310, some 370⟩] none (fun _ => false) true true
  exact ⟨h.1, h.2.1 (by decide), h.2.2 (by decide)⟩

/-- Witness for C2: cadet 42 already has a closed session covering the
whole Monday window (120 minutes); a second sign-in at Monday 20:50 that
night fails with the cap error and the stored sessions are unchanged. -/
theorem signIn_blocked_at_nightly_cap_witness :
    (handleSignIn ⟨[], [⟨1, 42, 4 * 1440 + 1170, some (4 * 1440 + 1290), false⟩], []⟩
      ("Al") (some ("3C")) ("G1") (4 * 1440 + 1250) 42 43 true true).1 =
      SignInOutcome.failed AspError.capExceededError ∧
    (handleSignIn ⟨[], [⟨1, 42, 4 * 1440 + 1170, some (4 * 1440 + 1290), false⟩], []⟩
      ("Al") (some ("3C")) ("G1") (4 * 1440 + 1250) 42 43 true true).2.sessions =
      [⟨1, 42, 4 * 1440 + 1170, some (4 * 1440 + 1290), false⟩] :=
  signIn_blocked_at_nightly_cap
    ⟨[], [⟨1, 42, 4 * 1440 + 1170, some (4 * 1440 + 1290), false⟩], []⟩
    ("Al") (some ("3C")) ("G1") (4 * 1440 + 1250) 42 43 42 true
    (by decide) (by decide) (by decide) (by decide) (by decide) (by decide)
